import Mathlib

/-!
Verification development for the resumable Jira scraper
(source: src/scrape_jira.py).

The Python program is shallowly embedded:

* JSON values (the payloads the scraper manipulates) are the inductive
  type `JVal`; Python dictionary operations (`d.get`, `d[k]`, `in`,
  truthiness, iteration, `str.strip`) are modelled by the `py*` helpers
  below, returning `Except String _` where the Python operation can
  raise.
* `transform_issue_for_llm` is embedded statement by statement; its
  outer `try/except` is the final `match` that maps any raised error to
  `none`.
* The pagination engine (`fetch_issues`) is embedded as a state machine
  over an abstract transport: every iteration of the `while True:` loop
  is `engineStep`, driven by a script of fetch outcomes; its observable
  effects (file writes, checkpoint saves, sleeps) form an event trace.
* The checkpoint store (`load_state` / `save_state`) is embedded over an
  explicit file-state model, including the crash states reachable while
  `save_state` rewrites the file in place.
* The urllib3 retry configuration built by `create_fault_tolerant_session`
  is embedded as `retry_strategy` / `session_get`, following the
  documented urllib3 `Retry` semantics (unset options keep their
  defaults, in particular `raise_on_status = true`).

Numbers appearing in the payloads are modelled as integers; the scraper
never does arithmetic on payload numbers, so no floating point behaviour
is relevant to the claims proved here.
-/

/-- A JSON value, as produced by `response.json()` / consumed by
`json.dump`.  Python `None` is `JVal.null`. -/
inductive JVal where
  | null : JVal
  | bool : Bool → JVal
  | num : Int → JVal
  | str : String → JVal
  | arr : List JVal → JVal
  | obj : List (String × JVal) → JVal

/-- Does the character list `l` start with `p`? -/
def listStartsWith : List Char → List Char → Bool
  | _, [] => true
  | [], _ :: _ => false
  | c :: cs, p :: ps => c == p && listStartsWith cs ps

/-- Does the character list `l` contain `p` as a contiguous run? -/
def listHasInfix : List Char → List Char → Bool
  | [], p => p.isEmpty
  | c :: t, p => listStartsWith (c :: t) p || listHasInfix t p

/-- Python `v == k` for a string literal `k`: true exactly when `v` is
the same string (strings compare equal only to strings). -/
def jvalIsStr (v : JVal) (k : String) : Bool :=
  match v with
  | .str s => s == k
  | _ => false

/-- Python truthiness (`if x:`) of a JSON value: `None`, `False`, `0`,
`""`, `[]` and `\x7b\x7d` are falsy, everything else truthy. -/
def JVal.truthy : JVal → Bool
  | .null => false
  | .bool b => b
  | .num n => n != 0
  | .str s => !s.isEmpty
  | .arr xs => !xs.isEmpty
  | .obj kvs => !kvs.isEmpty

/-- Python `d.get(k, default)`: returns the stored value (even if it is
`None`) when the key is present, the default when absent; raises
`AttributeError` when the receiver is not a dict. -/
def pyGetD (o : JVal) (k : String) (d : JVal) : Except String JVal :=
  match o with
  | .obj kvs => .ok ((kvs.lookup k).getD d)
  | _ => .error "AttributeError: get"

/-- Python `d.get(k)` (default `None`). -/
def pyGet (o : JVal) (k : String) : Except String JVal :=
  pyGetD o k .null

/-- Python `k in x` for a string key: dict → key containment, string →
substring, list → membership; otherwise `TypeError`. -/
def pyContains (o : JVal) (k : String) : Except String Bool :=
  match o with
  | .obj kvs => .ok (kvs.lookup k).isSome
  | .str s => .ok (listHasInfix s.toList k.toList)
  | .arr xs => .ok (xs.any (fun v => jvalIsStr v k))
  | _ => .error "TypeError: in"

/-- Python `x[k]` for a string key: dict lookup (`KeyError` when
absent); `TypeError` on any other receiver. -/
def pySubscript (o : JVal) (k : String) : Except String JVal :=
  match o with
  | .obj kvs =>
    match kvs.lookup k with
    | some v => .ok v
    | none => .error "KeyError"
  | _ => .error "TypeError: subscript"

/-- Python `for x in v`: lists iterate elements, strings iterate
characters, dicts iterate keys; other values raise `TypeError`. -/
def pyIter : JVal → Except String (List JVal)
  | .arr xs => .ok xs
  | .str s => .ok (s.toList.map (fun c => .str (String.mk [c])))
  | .obj kvs => .ok (kvs.map (fun kv => .str kv.1))
  | _ => .error "TypeError: not iterable"

/-- Python `str.strip()` with no arguments: remove leading and trailing
whitespace characters. -/
def stripStr (s : String) : String :=
  String.mk (((s.data.dropWhile Char.isWhitespace).reverse.dropWhile
    Char.isWhitespace).reverse)

/-- Python `v.strip()`: defined on strings only; any other value
(including `None`) raises `AttributeError`. -/
def pyStrip : JVal → Except String String
  | .str s => .ok (stripStr s)
  | _ => .error "AttributeError: strip"

mutual
/-- Python `repr` of a JSON value (used by `str()` on containers). -/
def pyRepr : JVal → String
  | .null => "None"
  | .bool true => "True"
  | .bool false => "False"
  | .num n => toString n
  | .str s => "\x27" ++ s ++ "\x27"
  | .arr xs => "[" ++ String.intercalate ", " (pyReprList xs) ++ "]"
  | .obj kvs => "\x7b" ++ String.intercalate ", " (pyReprKVs kvs) ++ "\x7d"

def pyReprList : List JVal → List String
  | [] => []
  | x :: xs => pyRepr x :: pyReprList xs

def pyReprKVs : List (String × JVal) → List String
  | [] => []
  | (k, v) :: kvs => ("\x27" ++ k ++ "\x27: " ++ pyRepr v) :: pyReprKVs kvs
end

/-- Python `str(v)`, as used inside f-strings. -/
def pyStr : JVal → String
  | .str s => s
  | v => pyRepr v

/-- Escaping applied by `json.dumps` to string payloads (the subset
relevant here: backslash, quote, newline, carriage return, tab). -/
def jsonEscape (s : String) : String :=
  ((((s.replace "\\" "\\\\").replace "\"" "\\\"").replace "\n" "\\n").replace
      "\x0d" "\\r").replace "\t" "\\t"

mutual
/-- Python `json.dumps(v)` (default separators). -/
def pyDumps : JVal → String
  | .null => "null"
  | .bool true => "true"
  | .bool false => "false"
  | .num n => toString n
  | .str s => "\"" ++ jsonEscape s ++ "\""
  | .arr xs => "[" ++ String.intercalate ", " (pyDumpsList xs) ++ "]"
  | .obj kvs => "\x7b" ++ String.intercalate ", " (pyDumpsKVs kvs) ++ "\x7d"

def pyDumpsList : List JVal → List String
  | [] => []
  | x :: xs => pyDumps x :: pyDumpsList xs

def pyDumpsKVs : List (String × JVal) → List String
  | [] => []
  | (k, v) :: kvs => ("\"" ++ jsonEscape k ++ "\": " ++ pyDumps v) :: pyDumpsKVs kvs
end

/-- Observation helper: field lookup on an object value. -/
def jget (o : JVal) (k : String) : Option JVal :=
  match o with
  | .obj kvs => kvs.lookup k
  | _ => none

/-- Observation helper: the keys of an object value, in order. -/
def jkeys (o : JVal) : List String :=
  match o with
  | .obj kvs => kvs.map Prod.fst
  | _ => []

/-- Observation helper: lookup inside the `metadata` sub-object. -/
def jmget (o : JVal) (k : String) : Option JVal :=
  (jget o "metadata").bind (fun m => jget m k)

/-! ## Record transformer (`transform_issue_for_llm`, src lines 83-182) -/

/-- Embedding of the repeated pattern at src lines 105-115:
`o = fields.get(key); o.get(attr, default) if o else default`. -/
def extractSub (fields : JVal) (key attr defv : String) : Except String JVal :=
  Except.bind (pyGet fields key) fun o =>
  if o.truthy then pyGetD o attr (.str defv) else .ok (.str defv)

/-- Embedding of the comment loop at src lines 128-134: each comment
contributes `"Comment by <author>:\n<body>\n---"` when its stripped
body is non-empty. -/
def commentFold : List JVal → List String → Except String (List String)
  | [], acc => .ok acc
  | c :: cs, acc =>
    Except.bind (pyGet c "author") fun author_obj =>
    Except.bind
      (if author_obj.truthy then pyGetD author_obj "displayName" (.str "Unknown")
       else .ok (JVal.str "Unknown")) fun author =>
    Except.bind (pyGetD c "body" (.str "")) fun bodyRaw =>
    Except.bind (pyStrip bodyRaw) fun body =>
    commentFold cs
      (if body ≠ "" then
        acc ++ ["Comment by " ++ pyStr author ++ ":\n" ++ body ++ "\n---"]
       else acc)

/-- Embedding of src lines 124-136: consolidate all comments into one
text block, falling back to `"No Comments"`. -/
def extractComments (fields : JVal) : Except String String :=
  Except.bind (pyGet fields "comment") fun comment_data =>
  Except.bind
    (if comment_data.truthy then pyContains comment_data "comments" else .ok false)
    fun cond =>
  Except.bind
    (if cond then
      Except.bind (pySubscript comment_data "comments") fun commentsVal =>
      Except.bind (pyIter commentsVal) fun commentList =>
      commentFold commentList []
     else .ok ([] : List String)) fun all_comments =>
  .ok (if all_comments.isEmpty then "No Comments" else String.intercalate "\n" all_comments)

/-- The three derived tasks built at src lines 156-175, as a function of
the already-extracted fields (deterministic string composition). -/
def derivedTasksFrom (title description status priority : JVal)
    (comments_text : String) : JVal :=
  .arr [
    .obj [
      ("task_type", .str "summarization"),
      ("instruction", .str "Summarize the following software issue, including its description and all comments, into a concise one-sentence title."),
      ("input", .str ("Description:\n" ++ pyStr description ++ "\n\nComments:\n" ++ comments_text)),
      ("output", title)],
    .obj [
      ("task_type", .str "classification"),
      ("instruction", .str "Based on the issue title and description, classify its priority. Valid options are: Blocker, Critical, Major, Minor, Trivial, Unknown."),
      ("input", .str ("Title: " ++ pyStr title ++ "\nDescription: " ++ pyStr description)),
      ("output", priority)],
    .obj [
      ("task_type", .str "question_answering"),
      ("instruction", .str "What is the status of this issue?"),
      ("input", .str ("Title: " ++ pyStr title ++ "\nDescription: " ++ pyStr description ++ "\nComments:\n" ++ comments_text)),
      ("output", status)]]

/-- The `structured_data` dictionary built at src lines 139-176. -/
def mkStructuredData (project_key : String)
    (issue_key title description status priority reporter assignee created labels : JVal)
    (comments_text : String) : JVal :=
  .obj [
    ("id", issue_key),
    ("project", .str project_key),
    ("title", title),
    ("description", description),
    ("comments_text", .str comments_text),
    ("metadata", .obj [
      ("status", status),
      ("priority", priority),
      ("reporter", reporter),
      ("assignee", assignee),
      ("created_at", created),
      ("labels", labels),
      ("issue_url", .str ("https://issues.apache.org/jira/browse/" ++ pyStr issue_key))]),
    ("derived_tasks", derivedTasksFrom title description status priority comments_text)]

/-- The body of the `try:` block of `transform_issue_for_llm`
(src lines 88-177).  `.ok none` is the explicit `return None` at line
93; `.error _` is a raised exception. -/
def transformBody (issue : JVal) (project_key : String) : Except String (Option JVal) :=
  Except.bind (pyGetD issue "fields" (.obj [])) fun fields =>
  if !fields.truthy then
    .ok none
  else
    Except.bind (pyGet issue "key") fun issue_key =>
    Except.bind (pyGetD fields "summary" (.str "No Title")) fun title =>
    Except.bind (pyGet fields "description") fun descriptionRaw =>
    let description := if descriptionRaw.truthy then descriptionRaw else JVal.str "No Description Provided"
    Except.bind (extractSub fields "status" "name" "Unknown") fun status =>
    Except.bind (extractSub fields "priority" "name" "Unknown") fun priority =>
    Except.bind (extractSub fields "reporter" "displayName" "Unknown") fun reporter =>
    Except.bind (extractSub fields "assignee" "displayName" "Not Assigned") fun assignee =>
    Except.bind (pyGetD fields "created" (.str "")) fun created =>
    Except.bind (pyGetD fields "labels" (.arr [])) fun labels =>
    Except.bind (extractComments fields) fun comments_text =>
    .ok (some (mkStructuredData project_key issue_key title description status
      priority reporter assignee created labels comments_text))

/-- `transform_issue_for_llm(issue, project_key)` (src lines 83-182):
the outer `except Exception` turns any raised error into `None`. -/
def transform_issue_for_llm (issue : JVal) (project_key : String) : Option JVal :=
  match transformBody issue project_key with
  | .ok r => r
  | .error _ => none

/-! ## Checkpoint store (`load_state` / `save_state`, src lines 60-81) -/

/-- The state the checkpoint file can be in when `load_state` runs:
absent, unreadable (`open` raises, src line 66 — not inside the
`try:`), readable but not decodable as JSON (`json.JSONDecodeError`,
caught at src line 69), or readable with some JSON content. -/
inductive FileState where
  | absent : FileState
  | unreadable : FileState
  | invalidJson : FileState
  | validJson : JVal → FileState

/-- The fallback state `\x7b"current_project_index": 0, "current_startAt": 0\x7d`
returned at src lines 71-72. -/
def fresh_state : JVal :=
  .obj [("current_project_index", .num 0), ("current_startAt", .num 0)]

/-- `load_state()` (src lines 60-72): absent file and undecodable
content fall back to the fresh state; an unreadable file raises (the
`open` call is outside the `try:`); decodable content is returned
as-is, whatever its shape. -/
def load_state : FileState → Except String JVal
  | .absent => .ok fresh_state
  | .unreadable => .error "OSError: open"
  | .invalidJson => .ok fresh_state
  | .validJson j => .ok j

/-- The text `json.dump(state, f, indent=2)` writes for
`save_state(project_index, start_at)` (src lines 74-81). -/
def save_state_json (project_index start_at : Nat) : String :=
  "\x7b\n  \"current_project_index\": " ++ toString project_index ++
    ",\n  \"current_startAt\": " ++ toString start_at ++ "\n\x7d"

/-- Every file content observable if the process crashes during
`save_state` (src lines 80-81): `open(STATE_FILE, 'w')` first truncates
the file, then the new text is written left to right.  `old` is the
content before the call; the reachable states are `old` (crash before
the `open`) and every prefix of the new text (the empty prefix is the
truncated file). -/
def save_state_states (old : String) (project_index start_at : Nat) : List String :=
  old :: ((save_state_json project_index start_at).data.inits.map (fun cs => String.mk cs))

/-- How `fetch_issues` reads the loaded state (src lines 190 and 197):
plain subscripts, which raise when the state is not a dict with both
keys holding numbers. -/
def engineCheckpoint (state : JVal) : Except String (Nat × Nat) :=
  Except.bind (pySubscript state "current_project_index") fun pi =>
  Except.bind (pySubscript state "current_startAt") fun sa =>
  match pi, sa with
  | .num a, .num b => .ok (a.toNat, b.toNat)
  | _, _ => .error "TypeError: not an index"

/-! ## Transport (`create_fault_tolerant_session`, src lines 38-58)

The session mounts `Retry(total=5, status_forcelist=[429, 500, 502,
503, 504], backoff_factor=1, allowed_methods=["GET"])`.  Options the
source does not set keep the urllib3 defaults; the one that matters
here is `raise_on_status`, whose default is `True`: when the status
retries are exhausted urllib3 raises `MaxRetryError`, which requests
surfaces to the caller of `session.get` as `requests.RetryError` — the
last response is not returned. -/

/-- The retry configuration built at src lines 46-51. -/
structure RetryConfig where
  total : Nat
  status_forcelist : List Nat
  backoff_factor : Nat
  allowed_methods : List String
  raise_on_status : Bool

def STATUS_FORCELIST : List Nat := [429, 500, 502, 503, 504]

def retry_strategy : RetryConfig :=
  { total := 5
    status_forcelist := STATUS_FORCELIST
    backoff_factor := 1
    allowed_methods := ["GET"]
    raise_on_status := true }

/-- Outcome of one `session.get` as seen by the caller: either a
response (with the list of backoff sleeps performed on the way), or a
raised `requests.RetryError`. -/
inductive TransportOutcome where
  | response : Nat → List Nat → TransportOutcome
  | retryError : List Nat → TransportOutcome

/-- The urllib3 retry loop for a GET: `server` gives the status of the
n-th request (0-based).  A status in the forcelist consumes a retry and
sleeps `backoff_factor * 2 ^ (number_of_retries - 1)` (the formula
quoted in the source comment at line 49); when retries are exhausted
the loop raises if `raise_on_status` is set, otherwise it returns the
last response. -/
def retryGo (cfg : RetryConfig) (server : Nat → Nat) (attempt : Nat) :
    Nat → TransportOutcome
  | 0 =>
    let st := server attempt
    if st ∈ cfg.status_forcelist then
      if cfg.raise_on_status then .retryError [] else .response st []
    else .response st []
  | r + 1 =>
    let st := server attempt
    if st ∈ cfg.status_forcelist then
      let backoff := cfg.backoff_factor * 2 ^ attempt
      match retryGo cfg server (attempt + 1) r with
      | .response s sl => .response s (backoff :: sl)
      | .retryError sl => .retryError (backoff :: sl)
    else .response st []

/-- `session.get` through the mounted adapter: up to
`retry_strategy.total` automatic retries. -/
def session_get (server : Nat → Nat) : TransportOutcome :=
  retryGo retry_strategy server 0 retry_strategy.total

/-- A server that answers 429 to every request. -/
def serverAlways429 : Nat → Nat := fun _ => 429

/-- A server that answers 200 to every request. -/
def serverAlways200 : Nat → Nat := fun _ => 200

/-! ## Pagination engine (`fetch_issues`, src lines 184-286)

The engine is embedded as a state machine producing a trace of its
observable effects.  Remote fetches are abstracted by a script of
outcomes: `resp status issues total` stands for a response whose
`.json()` holds `\x7b'issues': [...], 'total': n\x7d`; `netErr` for a raised
`requests.RequestException` (caught at src line 271); `exn` for any
other exception raised inside the `try:` (caught at src line 274,
covering e.g. a failing `.json()` or a malformed body). -/

def MAX_RESULTS_PER_PAGE : Nat := 100

def PROJECTS_TO_SCRAPE : List String := ["SPARK", "KAFKA", "BEAM"]

/-- One observable effect of the engine:
output-file operations (`openOut` is `open(OUTPUT_FILE, 'a')`,
`writeRec r` is `f.write(json.dumps(r) + '\n')`, `flush` is `f.flush()`
— never called by the source — and `closeOut` is the close at the end
of the `with` block), checkpoint commits (`saveState i off` is
`save_state(i, off)`), and sleeps (`time.sleep(secs)`). -/
inductive Ev where
  | openOut : Ev
  | writeRec : JVal → Ev
  | flush : Ev
  | closeOut : Ev
  | saveState : Nat → Nat → Ev
  | sleep : Nat → Ev

def Ev.isFlush : Ev → Bool
  | .flush => true
  | _ => false

def Ev.isWrite : Ev → Bool
  | .writeRec _ => true
  | _ => false

def Ev.isSave : Ev → Bool
  | .saveState _ _ => true
  | _ => false

/-- Outcome of one `session.get` for a page, as seen inside the
`try:` of the while loop. -/
inductive FetchResult where
  | resp : Nat → List JVal → Nat → FetchResult
  | netErr : FetchResult
  | exn : FetchResult

/-- Result of one iteration of the `while True:` loop: the events it
emitted, the `start_at` afterwards, and whether the loop `break`s. -/
structure StepOut where
  evs : List Ev
  startAt : Nat
  brk : Bool

/-- One iteration of the `while True:` loop of `fetch_issues`
(src lines 218-278) for project index `i` at offset `s`:
* non-200 response: 429 sleeps 60 s and retries the same offset
  (src lines 237-240), anything else breaks (src line 242);
* 200 with no issues: break (src lines 247-250);
* 200 with issues: write each successfully transformed record, advance
  `start_at` by the page length, commit `save_state(i, start_at)`, then
  break when `start_at >= total` (src lines 252-269);
* network error: sleep 30 s, same offset (src lines 271-273);
* any other exception: skip a full page width, no write, no commit
  (src lines 274-278). -/
def engineStep (project_key : String) (i s : Nat) : FetchResult → StepOut
  | .resp status issues total =>
    if status ≠ 200 then
      if status = 429 then ⟨[.sleep 60], s, false⟩
      else ⟨[], s, true⟩
    else if issues.isEmpty then ⟨[], s, true⟩
    else
      let written := (issues.filterMap
        (fun issue => transform_issue_for_llm issue project_key)).map Ev.writeRec
      let s2 := s + issues.length
      ⟨written ++ [.saveState i s2], s2, decide (total ≤ s2)⟩
  | .netErr => ⟨[.sleep 30], s, false⟩
  | .exn => ⟨[], s + MAX_RESULTS_PER_PAGE, false⟩

/-- The `while True:` loop, driven by a script of fetch outcomes (the
loop ends when the script runs out, standing in for an interrupted
run). -/
def pageLoop (project_key : String) (i : Nat) :
    List FetchResult → Nat → List Ev × Nat
  | [], s => ([], s)
  | r :: rest, s =>
    let o := engineStep project_key i s r
    if o.brk then (o.evs, o.startAt)
    else
      let next := pageLoop project_key i rest o.startAt
      (o.evs ++ next.1, next.2)

/-- The remote behaviour one project run sees: the outcome of
`get_total_issues` (src lines 288-294; `.error ()` is a raised
exception, caught at src line 211) and the script for the page loop. -/
structure ProjEnv where
  total : Except Unit Nat
  script : List FetchResult

/-- One iteration of the `for i in range(...)` loop (src lines 192-284)
for project index `i` starting at offset `start_at`:
the output file is opened (append mode) before the total query; a
failed or zero total `continue`s out of the `with` block — closing the
file but skipping the `save_state(i + 1, 0)` at src line 284 — while a
positive total runs the page loop and then commits
`save_state(i + 1, 0)` after the file is closed. -/
def runProject (project_key : String) (i start_at : Nat) (env : ProjEnv) : List Ev :=
  match env.total with
  | .error _ => [.openOut, .closeOut]
  | .ok 0 => [.openOut, .closeOut]
  | .ok (_ + 1) =>
    .openOut :: (pageLoop project_key i env.script start_at).1 ++
      [.closeOut, .saveState (i + 1) 0]

/-- Index-decorated suffix of the project list, starting at index `i`. -/
def enumFrom (i : Nat) : List String → List (Nat × String)
  | [] => []
  | pk :: rest => (i, pk) :: enumFrom (i + 1) rest

/-- The `for` loop of `fetch_issues` over the remaining projects:
the first (resumed) project starts at the saved offset, later projects
at 0 (src line 197). -/
def runProjList (startIdx resumeAt : Nat) (envs : Nat → ProjEnv) :
    List (Nat × String) → List Ev
  | [] => []
  | (i, pk) :: rest =>
    let start_at := if i = startIdx then resumeAt else 0
    runProject pk i start_at (envs i) ++ runProjList startIdx resumeAt envs rest

/-- `fetch_issues()` (src lines 184-286) from a loaded checkpoint
`(current_project_index, current_startAt)`, over abstract remote
behaviour `envs`. -/
def fetch_issues (startIdx resumeAt : Nat) (envs : Nat → ProjEnv) : List Ev :=
  runProjList startIdx resumeAt envs
    (enumFrom startIdx (PROJECTS_TO_SCRAPE.drop startIdx))

/-! ## Output sink

The destination file under the engine's event trace: `openOut` keeps
the existing durable content (mode `'a'`), `writeRec` appends one
serialized record and a newline to the (buffered) file handle, `flush`
and `closeOut` make the buffer durable.  Content is tracked as a list
of written chunks. -/

/-- Durable content plus not-yet-flushed buffer of the output file. -/
structure OutFile where
  durable : List String
  buffer : List String

/-- Effect of one engine event on the output file. -/
def applyEv (fs : OutFile) : Ev → OutFile
  | .openOut => fs
  | .writeRec r => { fs with buffer := fs.buffer ++ [pyDumps r ++ "\n"] }
  | .flush => { durable := fs.durable ++ fs.buffer, buffer := [] }
  | .closeOut => { durable := fs.durable ++ fs.buffer, buffer := [] }
  | _ => fs

/-- Run a whole event trace over the output file. -/
def runEvs (fs : OutFile) (evs : List Ev) : OutFile :=
  evs.foldl applyEv fs

/-- The chunk a single event contributes to the output file. -/
def lineOf : Ev → Option String
  | .writeRec r => some (pyDumps r ++ "\n")
  | _ => none

/-! ## Helper lemmas -/

theorem ebind_ok {α β : Type} (a : α) (f : α → Except String β) :
    Except.bind (Except.ok a) f = f a := rfl

theorem ebind_error {α β : Type} (e : String) (f : α → Except String β) :
    Except.bind (Except.error e : Except String α) f = .error e := rfl

/-- When the comment list holds a dict comment whose `body` key is
present with value `None`, the comment loop raises (at latest at
`None.strip()`), whatever came before it in the list. -/
theorem commentFold_error_of_null_body (cs : List JVal) (acc : List String)
    (h : ∃ ckv, JVal.obj ckv ∈ cs ∧ ckv.lookup "body" = some JVal.null) :
    ∃ e, commentFold cs acc = .error e := by
  induction cs generalizing acc with
  | nil =>
    obtain ⟨ckv, hmem, _⟩ := h
    cases hmem
  | cons c t ih =>
    obtain ⟨ckv, hmem, hbody⟩ := h
    rcases List.mem_cons.mp hmem with hc | hmem'
    · subst hc
      have hauthor : pyGet (JVal.obj ckv) "author" = .ok ((ckv.lookup "author").getD .null) := rfl
      have hbodyget : pyGetD (JVal.obj ckv) "body" (.str "") = .ok JVal.null := by
        simp [pyGetD, hbody]
      by_cases hA : ((ckv.lookup "author").getD JVal.null).truthy
      · rcases haut : pyGetD ((ckv.lookup "author").getD JVal.null) "displayName" (.str "Unknown") with e | author
        · exact ⟨e, by simp only [commentFold, hauthor, ebind_ok, hA, if_true, haut, ebind_error]⟩
        · exact ⟨"AttributeError: strip", by
            simp only [commentFold, hauthor, ebind_ok, hA, if_true, haut, hbodyget,
              pyStrip, ebind_error]⟩
      · rw [Bool.not_eq_true] at hA
        exact ⟨"AttributeError: strip", by
          simp only [commentFold, hauthor, ebind_ok, hA, Bool.false_eq_true, if_false,
            hbodyget, pyStrip, ebind_error]⟩
    · rcases h1 : pyGet c "author" with e | A
      · exact ⟨e, by simp only [commentFold, h1, ebind_error]⟩
      · rcases h2 : (if A.truthy then pyGetD A "displayName" (.str "Unknown")
            else .ok (JVal.str "Unknown")) with e | author
        · exact ⟨e, by simp only [commentFold, h1, ebind_ok, h2, ebind_error]⟩
        · rcases h3 : pyGetD c "body" (.str "") with e | bodyRaw
          · exact ⟨e, by simp only [commentFold, h1, ebind_ok, h2, h3, ebind_error]⟩
          · rcases h4 : pyStrip bodyRaw with e | body
            · exact ⟨e, by simp only [commentFold, h1, ebind_ok, h2, h3, h4, ebind_error]⟩
            · obtain ⟨e, he⟩ := ih (if body ≠ "" then
                  acc ++ ["Comment by " ++ pyStr author ++ ":\n" ++ body ++ "\n---"]
                else acc) ⟨ckv, hmem', hbody⟩
              exact ⟨e, by simp only [commentFold, h1, ebind_ok, h2, h3, h4, he]⟩

/-- Comments whose `body` is absent, or a string that strips to empty,
are all skipped: the accumulator passes through unchanged. -/
theorem commentFold_skips_all (cs : List JVal)
    (h : ∀ c ∈ cs, ∃ ckv, c = JVal.obj ckv ∧
      (ckv.lookup "author").getD .null = .null ∧
      (ckv.lookup "body" = none ∨ ∃ s, ckv.lookup "body" = some (.str s) ∧ stripStr s = "")) :
    ∀ acc, commentFold cs acc = .ok acc := by
  induction cs with
  | nil => intro acc; rfl
  | cons c t ih =>
    intro acc
    obtain ⟨ckv, hc, hauth, hbody⟩ := h c (List.mem_cons_self c t)
    subst hc
    have h1 : pyGet (JVal.obj ckv) "author" = .ok JVal.null := by
      simp [pyGet, pyGetD, hauth]
    have htrim : stripStr "" = "" := rfl
    have htail := ih (fun c hc => h c (List.mem_cons_of_mem _ hc))
    rcases hbody with hb | ⟨s, hb, hs⟩
    · have h2 : pyGetD (JVal.obj ckv) "body" (.str "") = .ok (.str "") := by
        simp [pyGetD, hb]
      simp only [commentFold, h1, ebind_ok, JVal.truthy, Bool.false_eq_true, if_false,
        h2, pyStrip, htrim, ne_eq, not_true_eq_false, ite_false]
      exact htail acc
    · have h2 : pyGetD (JVal.obj ckv) "body" (.str "") = .ok (.str s) := by
        simp [pyGetD, hb]
      simp only [commentFold, h1, ebind_ok, JVal.truthy, Bool.false_eq_true, if_false,
        h2, pyStrip, hs, ne_eq, not_true_eq_false, ite_false]
      exact htail acc

/-- Every successful result of the transformer is one instance of the
`structured_data` dictionary shape. -/
theorem transform_ok_factor (issue : JVal) (pk : String) (r : JVal)
    (h : transform_issue_for_llm issue pk = some r) :
    ∃ key title desc st pr rep asg created labels ctext,
      r = mkStructuredData pk key title desc st pr rep asg created labels ctext := by
  unfold transform_issue_for_llm at h
  rcases hb : transformBody issue pk with e | o
  · rw [hb] at h; cases h
  · rw [hb] at h
    simp only at h
    subst h
    unfold transformBody at hb
    rcases h1 : pyGetD issue "fields" (.obj []) with e | fields
    · simp [h1, ebind_error] at hb
    · simp only [h1, ebind_ok] at hb
      by_cases hft : fields.truthy
      · simp only [hft, Bool.not_true, Bool.false_eq_true, if_false] at hb
        rcases h2 : pyGet issue "key" with e | issue_key
        · simp [h2, ebind_error] at hb
        · simp only [h2, ebind_ok] at hb
          rcases h3 : pyGetD fields "summary" (.str "No Title") with e | title
          · simp [h3, ebind_error] at hb
          · simp only [h3, ebind_ok] at hb
            rcases h4 : pyGet fields "description" with e | descriptionRaw
            · simp [h4, ebind_error] at hb
            · simp only [h4, ebind_ok] at hb
              rcases h5 : extractSub fields "status" "name" "Unknown" with e | status
              · simp [h5, ebind_error] at hb
              · simp only [h5, ebind_ok] at hb
                rcases h6 : extractSub fields "priority" "name" "Unknown" with e | priority
                · simp [h6, ebind_error] at hb
                · simp only [h6, ebind_ok] at hb
                  rcases h7 : extractSub fields "reporter" "displayName" "Unknown" with e | reporter
                  · simp [h7, ebind_error] at hb
                  · simp only [h7, ebind_ok] at hb
                    rcases h8 : extractSub fields "assignee" "displayName" "Not Assigned" with e | assignee
                    · simp [h8, ebind_error] at hb
                    · simp only [h8, ebind_ok] at hb
                      rcases h9 : pyGetD fields "created" (.str "") with e | created
                      · simp [h9, ebind_error] at hb
                      · simp only [h9, ebind_ok] at hb
                        rcases h10 : pyGetD fields "labels" (.arr []) with e | labels
                        · simp [h10, ebind_error] at hb
                        · simp only [h10, ebind_ok] at hb
                          rcases h11 : extractComments fields with e | comments_text
                          · simp [h11, ebind_error] at hb
                          · simp only [h11, ebind_ok, Except.ok.injEq, Option.some.injEq] at hb
                            exact ⟨issue_key, title,
                              (if descriptionRaw.truthy then descriptionRaw else JVal.str "No Description Provided"),
                              status, priority, reporter, assignee, created, labels, comments_text, hb.symm⟩
      · simp only [hft, Bool.not_false, if_true] at hb
        cases hb

/-- Under a comment container with a null-body comment, the whole
record transform returns None (the raise is caught record-wide). -/
theorem transform_none_of_null_body (pk : String)
    (ikvs fkvs ckvs ckv : List (String × JVal)) (cs : List JVal)
    (hif : ikvs.lookup "fields" = some (.obj fkvs))
    (hcomf : fkvs.lookup "comment" = some (.obj ckvs))
    (hcs : ckvs.lookup "comments" = some (.arr cs))
    (hmem : JVal.obj ckv ∈ cs)
    (hbody : ckv.lookup "body" = some JVal.null) :
    transform_issue_for_llm (.obj ikvs) pk = none := by
  have hne : fkvs.isEmpty = false := by
    cases fkvs with
    | nil => simp at hcomf
    | cons a l => rfl
  have hcne : ckvs.isEmpty = false := by
    cases ckvs with
    | nil => simp at hcs
    | cons a l => rfl
  have hcd : pyGet (JVal.obj fkvs) "comment" = .ok (.obj ckvs) := by
    simp [pyGet, pyGetD, hcomf]
  have hcont : pyContains (JVal.obj ckvs) "comments" = .ok true := by
    simp [pyContains, hcs]
  have hsub : pySubscript (JVal.obj ckvs) "comments" = .ok (.arr cs) := by
    simp [pySubscript, hcs]
  obtain ⟨e, hcf⟩ := commentFold_error_of_null_body cs [] ⟨ckv, hmem, hbody⟩
  have hec : extractComments (JVal.obj fkvs) = .error e := by
    simp only [extractComments, hcd, ebind_ok, JVal.truthy, hcne, Bool.not_false,
      if_true, hcont, hsub, pyIter, hcf, ebind_error]
  unfold transform_issue_for_llm transformBody
  simp only [pyGet, pyGetD, hif, Option.getD_some, ebind_ok, JVal.truthy, hne,
    Bool.not_false, Bool.not_true, Bool.false_eq_true, if_false]
  rcases h5 : extractSub (.obj fkvs) "status" "name" "Unknown" with e5 | status
  · simp only [h5, ebind_error, Bool.not_true, Bool.false_eq_true, if_false]
  · simp only [h5, ebind_ok]
    rcases h6 : extractSub (.obj fkvs) "priority" "name" "Unknown" with e6 | priority
    · simp only [h6, ebind_error, Bool.not_true, Bool.false_eq_true, if_false]
    · simp only [h6, ebind_ok]
      rcases h7 : extractSub (.obj fkvs) "reporter" "displayName" "Unknown" with e7 | reporter
      · simp only [h7, ebind_error, Bool.not_true, Bool.false_eq_true, if_false]
      · simp only [h7, ebind_ok]
        rcases h8 : extractSub (.obj fkvs) "assignee" "displayName" "Not Assigned" with e8 | assignee
        · simp only [h8, ebind_error, Bool.not_true, Bool.false_eq_true, if_false]
        · simp only [h8, ebind_ok, hec, ebind_error, Bool.not_true, Bool.false_eq_true, if_false]


/-- Comments whose bodies are absent or whitespace-only are excluded
and the record is still produced, with no comment text remaining. -/
theorem transform_skips_blank_comments (pk : String)
    (ikvs fkvs ckvs : List (String × JVal)) (cs : List JVal)
    (hif : ikvs.lookup "fields" = some (.obj fkvs))
    (hst : (fkvs.lookup "status").getD .null = .null)
    (hpr : (fkvs.lookup "priority").getD .null = .null)
    (hrep : (fkvs.lookup "reporter").getD .null = .null)
    (hasg : (fkvs.lookup "assignee").getD .null = .null)
    (hcomf : fkvs.lookup "comment" = some (.obj ckvs))
    (hcs : ckvs.lookup "comments" = some (.arr cs))
    (hall : ∀ c ∈ cs, ∃ ckv, c = JVal.obj ckv ∧
      (ckv.lookup "author").getD .null = .null ∧
      (ckv.lookup "body" = none ∨ ∃ s, ckv.lookup "body" = some (.str s) ∧ stripStr s = "")) :
    ∃ r, transform_issue_for_llm (.obj ikvs) pk = some r ∧
      jget r "comments_text" = some (.str "No Comments") := by
  have hne : fkvs.isEmpty = false := by
    cases fkvs with
    | nil => simp at hcomf
    | cons a l => rfl
  have hcne : ckvs.isEmpty = false := by
    cases ckvs with
    | nil => simp at hcs
    | cons a l => rfl
  have hcd : pyGet (JVal.obj fkvs) "comment" = .ok (.obj ckvs) := by
    simp [pyGet, pyGetD, hcomf]
  have hcont : pyContains (JVal.obj ckvs) "comments" = .ok true := by
    simp [pyContains, hcs]
  have hsub : pySubscript (JVal.obj ckvs) "comments" = .ok (.arr cs) := by
    simp [pySubscript, hcs]
  have hcf := commentFold_skips_all cs hall []
  have hec : extractComments (JVal.obj fkvs) = .ok "No Comments" := by
    simp only [extractComments, hcd, ebind_ok, JVal.truthy, hcne, Bool.not_false,
      if_true, hcont, hsub, pyIter, hcf, List.isEmpty_nil, ite_true]
  have hsx : extractSub (JVal.obj fkvs) "status" "name" "Unknown" = .ok (.str "Unknown") := by
    simp [extractSub, pyGet, pyGetD, hst, ebind_ok, JVal.truthy]
  have hpx : extractSub (JVal.obj fkvs) "priority" "name" "Unknown" = .ok (.str "Unknown") := by
    simp [extractSub, pyGet, pyGetD, hpr, ebind_ok, JVal.truthy]
  have hrx : extractSub (JVal.obj fkvs) "reporter" "displayName" "Unknown" = .ok (.str "Unknown") := by
    simp [extractSub, pyGet, pyGetD, hrep, ebind_ok, JVal.truthy]
  have hax : extractSub (JVal.obj fkvs) "assignee" "displayName" "Not Assigned" = .ok (.str "Not Assigned") := by
    simp [extractSub, pyGet, pyGetD, hasg, ebind_ok, JVal.truthy]
  have main : transform_issue_for_llm (.obj ikvs) pk =
      some (mkStructuredData pk
        ((ikvs.lookup "key").getD .null)
        ((fkvs.lookup "summary").getD (.str "No Title"))
        (if ((fkvs.lookup "description").getD JVal.null).truthy then
          ((fkvs.lookup "description").getD JVal.null)
         else JVal.str "No Description Provided")
        (.str "Unknown") (.str "Unknown") (.str "Unknown") (.str "Not Assigned")
        ((fkvs.lookup "created").getD (.str ""))
        ((fkvs.lookup "labels").getD (.arr []))
        "No Comments") := by
    unfold transform_issue_for_llm transformBody
    simp only [pyGet, pyGetD, hif, Option.getD_some, ebind_ok, JVal.truthy, hne,
      Bool.not_false, Bool.not_true, Bool.false_eq_true, if_false,
      hsx, hpx, hrx, hax, hec]
  exact ⟨_, main, rfl⟩

/-! ## Claim theorems

Concrete sample records used by witnesses and counterexamples. -/

def issueA : JVal := .obj [("key", .str "SPARK-1"), ("fields", .obj [("summary", .str "First")])]

def issueB : JVal := .obj [("key", .str "SPARK-2"), ("fields", .obj [("summary", .str "Second")])]

/-- C1: for every successfully fetched and processed page of `n` raw
records, the engine advances the offset by exactly `n` (the page
length, regardless of how many records transformed successfully), and
the events of that iteration are exactly the writes of the transformed
records followed by the single checkpoint commit
`save_state(i, new_offset)` — write-then-commit order. -/
theorem c1_page_offset_and_write_then_commit (pk : String) (i s : Nat)
    (issues : List JVal) (total : Nat) (h : issues ≠ []) :
    (engineStep pk i s (.resp 200 issues total)).startAt = s + issues.length ∧
    (engineStep pk i s (.resp 200 issues total)).evs =
      ((issues.filterMap (fun issue => transform_issue_for_llm issue pk)).map Ev.writeRec)
        ++ [Ev.saveState i (s + issues.length)] := by
  have hne : issues.isEmpty = false := by
    cases issues with
    | nil => exact absurd rfl h
    | cons a l => rfl
  constructor <;> simp [engineStep, hne]

/-- Witness for C1 at a concrete one-record page. -/
theorem c1_witness :
    (engineStep "SPARK" 0 5 (.resp 200 [issueA] 10)).startAt = 5 + [issueA].length ∧
    (engineStep "SPARK" 0 5 (.resp 200 [issueA] 10)).evs =
      (([issueA].filterMap (fun issue => transform_issue_for_llm issue "SPARK")).map Ev.writeRec)
        ++ [Ev.saveState 0 (5 + [issueA].length)] :=
  c1_page_offset_and_write_then_commit "SPARK" 0 5 [issueA] 10 (List.cons_ne_nil _ _)

/-- C2 counterexample: `save_state` truncates in place
(`open(STATE_FILE, 'w')`), so the empty file is a reachable crash
state, and it is neither the complete old value nor the complete new
value. -/
theorem c2_truncated_state_counterexample :
    "" ∈ save_state_states (save_state_json 0 100) 1 0 ∧
    "" ≠ save_state_json 0 100 ∧ "" ≠ save_state_json 1 0 :=
  ⟨by simp [save_state_states], by decide, by decide⟩

/-- C2 amended: a crash during `save_state` leaves either the old
content or some (possibly empty, possibly complete) prefix of the new
content — not necessarily the complete old or new value. -/
theorem c2_save_crash_states_amended (old : String) (i s : Nat) (st : String)
    (h : st ∈ save_state_states old i s) :
    st = old ∨ ∃ rest, st.data ++ rest = (save_state_json i s).data := by
  rcases List.mem_cons.mp h with h | h
  · exact Or.inl h
  · right
    obtain ⟨cs, hcs, rfl⟩ := List.mem_map.mp h
    obtain ⟨rest, hrest⟩ := (List.mem_inits cs _).mp hcs
    exact ⟨rest, hrest⟩

/-- Witness for C2 amended at the truncated crash state. -/
theorem c2_witness :
    ("" : String) = save_state_json 0 100 ∨
    ∃ rest, ("" : String).data ++ rest = (save_state_json 1 0).data :=
  c2_save_crash_states_amended (save_state_json 0 100) 1 0 "" (by simp [save_state_states])

/-- C3 counterexample: with the configured `Retry` (which leaves
`raise_on_status` at its default `True`), a server that keeps answering
429 makes `session.get` raise a retry-exhaustion error after 5 retries
(backoff sleeps 1, 2, 4, 8, 16) — the last observed response is not
returned to the caller. -/
theorem c3_exhaustion_raises_counterexample :
    session_get serverAlways429 = .retryError [1, 2, 4, 8, 16] := rfl

/-- C3 amended: the transport retries exactly on the statuses in
`status_forcelist` up to 5 retries with backoff
`backoff_factor * 2 ^ (attempt - 1)`; but when the retries are
exhausted it raises a retry error instead of returning the last
response (first conjunct), and a non-forcelist status is returned
immediately with the accumulated backoff sleeps (second conjunct). -/
theorem c3_retry_policy_amended (server : Nat → Nat) :
    ((∀ k, k ≤ 5 → server k ∈ STATUS_FORCELIST) →
      session_get server = .retryError [1, 2, 4, 8, 16]) ∧
    (∀ k, k ≤ 5 → (∀ j, j < k → server j ∈ STATUS_FORCELIST) →
      server k ∉ STATUS_FORCELIST →
      session_get server = .response (server k) ((List.range k).map (fun j => 2 ^ j))) := by
  constructor
  · intro h
    have h0 := h 0 (by norm_num)
    have h1 := h 1 (by norm_num)
    have h2 := h 2 (by norm_num)
    have h3 := h 3 (by norm_num)
    have h4 := h 4 (by norm_num)
    have h5 := h 5 (by norm_num)
    simp [session_get, retryGo, retry_strategy, h0, h1, h2, h3, h4, h5]
  · intro k hk hprev hbad
    interval_cases k
    · simp [session_get, retryGo, retry_strategy, hbad]
    · have h0 := hprev 0 (by norm_num)
      simp [session_get, retryGo, retry_strategy, h0, hbad, List.range_succ]
    · have h0 := hprev 0 (by norm_num)
      have h1 := hprev 1 (by norm_num)
      simp [session_get, retryGo, retry_strategy, h0, h1, hbad, List.range_succ]
    · have h0 := hprev 0 (by norm_num)
      have h1 := hprev 1 (by norm_num)
      have h2 := hprev 2 (by norm_num)
      simp [session_get, retryGo, retry_strategy, h0, h1, h2, hbad, List.range_succ]
    · have h0 := hprev 0 (by norm_num)
      have h1 := hprev 1 (by norm_num)
      have h2 := hprev 2 (by norm_num)
      have h3 := hprev 3 (by norm_num)
      simp [session_get, retryGo, retry_strategy, h0, h1, h2, h3, hbad, List.range_succ]
    · have h0 := hprev 0 (by norm_num)
      have h1 := hprev 1 (by norm_num)
      have h2 := hprev 2 (by norm_num)
      have h3 := hprev 3 (by norm_num)
      have h4 := hprev 4 (by norm_num)
      simp [session_get, retryGo, retry_strategy, h0, h1, h2, h3, h4, hbad, List.range_succ]

/-- Witness for C3 amended: both conjuncts at concrete servers. -/
theorem c3_witness :
    session_get serverAlways429 = .retryError [1, 2, 4, 8, 16] ∧
    session_get serverAlways200 = .response 200 [] :=
  ⟨(c3_retry_policy_amended serverAlways429).1
      (fun k _ => by simp [serverAlways429, STATUS_FORCELIST]),
   by
    have h := (c3_retry_policy_amended serverAlways200).2 0 (by norm_num)
      (fun j hj => absurd hj (by omega))
      (by simp [serverAlways200, STATUS_FORCELIST])
    simpa [serverAlways200] using h⟩

/-- C4 counterexample: an unreadable checkpoint file makes `load_state`
raise (the `open` is outside the `try:`), and a readable file whose
content is valid JSON of the wrong shape is returned as-is — not the
initial checkpoint — after which the engine raises when it reads
`state['current_project_index']`. -/
theorem c4_load_state_counterexample :
    load_state .unreadable = .error "OSError: open" ∧
    load_state (.validJson (.arr [])) = .ok (.arr []) ∧
    (JVal.arr [] ≠ fresh_state) ∧
    engineCheckpoint (.arr []) = .error "TypeError: subscript" := by
  refine ⟨rfl, rfl, ?_, rfl⟩
  simp [fresh_state]

/-- C4 amended: `load_state` returns the initial checkpoint
`(partition 0, offset 0)` when the file is absent or its content is not
decodable JSON (and the engine then really does start at partition 0);
it raises on an unreadable file, and returns decodable content as-is
whatever its shape. -/
theorem c4_load_state_amended :
    load_state .absent = .ok fresh_state ∧
    load_state .invalidJson = .ok fresh_state ∧
    load_state .unreadable = .error "OSError: open" ∧
    (∀ j, load_state (.validJson j) = .ok j) ∧
    engineCheckpoint fresh_state = .ok (0, 0) :=
  ⟨rfl, rfl, rfl, fun _ => rfl, rfl⟩

/-- C5 counterexample: partitions whose total count is 0 are skipped
with `continue`, which bypasses the `save_state(i + 1, 0)` at src line
284 — a full run over three zero-total partitions writes no checkpoint
at all. -/
theorem c5_zero_total_skips_checkpoint_counterexample :
    fetch_issues 0 0 (fun _ => ⟨.ok 0, []⟩) =
      [.openOut, .closeOut, .openOut, .closeOut, .openOut, .closeOut] ∧
    (fetch_issues 0 0 (fun _ => ⟨.ok 0, []⟩)).filter Ev.isSave = [] :=
  ⟨rfl, rfl⟩

/-- C5 amended: the engine persists `(partition_index + 1, 0)` when a
partition's page loop finishes (first conjunct), but a partition that
is skipped because its total count is 0, or because the total query
raised, is passed over without any checkpoint write (second and third
conjuncts). -/
theorem c5_partition_advance_amended :
    (∀ pk i s env t, env.total = .ok t → 0 < t →
      ∃ evs, runProject pk i s env =
        Ev.openOut :: evs ++ [Ev.closeOut, Ev.saveState (i + 1) 0]) ∧
    (∀ pk i s env, env.total = .ok 0 → runProject pk i s env = [.openOut, .closeOut]) ∧
    (∀ (pk : String) (i s : Nat) (env : ProjEnv), env.total = .error () →
      runProject pk i s env = [.openOut, .closeOut]) := by
  refine ⟨?_, ?_, ?_⟩
  · intro pk i s env t h ht
    cases t with
    | zero => exact absurd ht (by simp)
    | succ n =>
      refine ⟨(pageLoop pk i env.script s).1, ?_⟩
      simp [runProject, h]
  · intro pk i s env h
    simp [runProject, h]
  · intro pk i s env h
    simp [runProject, h]

/-- Witness for C5 amended: all three conjuncts at concrete partitions. -/
theorem c5_witness :
    (∃ evs, runProject "SPARK" 0 0 ⟨.ok 1, []⟩ =
      Ev.openOut :: evs ++ [Ev.closeOut, Ev.saveState 1 0]) ∧
    runProject "KAFKA" 1 0 ⟨.ok 0, []⟩ = [.openOut, .closeOut] ∧
    runProject "BEAM" 2 0 ⟨.error (), []⟩ = [.openOut, .closeOut] :=
  ⟨c5_partition_advance_amended.1 "SPARK" 0 0 ⟨.ok 1, []⟩ 1 rfl (by norm_num),
   c5_partition_advance_amended.2.1 "KAFKA" 1 0 ⟨.ok 0, []⟩ rfl,
   c5_partition_advance_amended.2.2 "BEAM" 2 0 ⟨.error (), []⟩ rfl⟩

/-- C6 counterexample: a record whose `fields` object is present but
empty is falsy in Python (`if not fields`), so the transformer returns
None instead of a sentinel-filled record, although every one of
status/priority/reporter/assignee/comment is "missing". -/
theorem c6_empty_fields_counterexample :
    transform_issue_for_llm (.obj [("key", .str "ISSUE-1"), ("fields", .obj [])]) "SPARK" =
      none := rfl

/-- A sub-object site of the ordinary shape the transformer expects:
either falsy (covering missing and null) or a dict.  Outside this shape
the extraction itself raises (e.g. a truthy string has no `.get`) and
the record-level handler turns the whole record into None. -/
def benignSub (v : JVal) : Prop :=
  v.truthy = false ∨ ∃ kvs, v = JVal.obj kvs

/-- A comment of the ordinary shape: a dict whose author site is benign
and whose body is absent or a string. -/
def benignComment (c : JVal) : Prop :=
  ∃ ckv, c = JVal.obj ckv ∧
    benignSub ((ckv.lookup "author").getD .null) ∧
    (ckv.lookup "body" = none ∨ ∃ s, ckv.lookup "body" = some (.str s))

/-- A comment container of the ordinary shape: falsy (covering missing
and null), or a dict without a comment list, or a dict holding a list
of benign comments. -/
def benignCommentSite (v : JVal) : Prop :=
  v.truthy = false ∨
  (∃ ckvs, v = JVal.obj ckvs ∧
    (ckvs.lookup "comments" = none ∨
     ∃ cs, ckvs.lookup "comments" = some (.arr cs) ∧ ∀ c ∈ cs, benignComment c))

/-- A benign sub-object site never raises, and yields the default
sentinel whenever the site is missing or null. -/
theorem extractSub_ok_of_benign (fkvs : List (String × JVal)) (key attr defv : String)
    (h : benignSub ((fkvs.lookup key).getD .null)) :
    ∃ v, extractSub (JVal.obj fkvs) key attr defv = .ok v ∧
      ((fkvs.lookup key).getD .null = .null → v = .str defv) := by
  have hget : pyGet (JVal.obj fkvs) key = .ok ((fkvs.lookup key).getD .null) := rfl
  rcases h with hf | ⟨kvs, hobj⟩
  · exact ⟨.str defv,
      by simp only [extractSub, hget, ebind_ok, hf, Bool.false_eq_true, if_false],
      fun _ => rfl⟩
  · by_cases ht : ((fkvs.lookup key).getD .null).truthy
    · refine ⟨(kvs.lookup attr).getD (.str defv), ?_, fun hn => by simp [hobj] at hn⟩
      rw [hobj] at ht
      simp only [extractSub, hget, ebind_ok, hobj, pyGetD, ht, if_true]
    · rw [Bool.not_eq_true] at ht
      exact ⟨.str defv,
        by simp only [extractSub, hget, ebind_ok, ht, Bool.false_eq_true, if_false],
        fun _ => rfl⟩

/-- The comment loop never raises over benign comments. -/
theorem commentFold_ok_of_benign (cs : List JVal)
    (h : ∀ c ∈ cs, benignComment c) :
    ∀ acc, ∃ out, commentFold cs acc = .ok out := by
  induction cs with
  | nil => exact fun acc => ⟨acc, rfl⟩
  | cons c t ih =>
    intro acc
    obtain ⟨ckv, hc, hauth, hbody⟩ := h c (List.mem_cons_self c t)
    subst hc
    have hget : pyGet (JVal.obj ckv) "author" = .ok ((ckv.lookup "author").getD .null) := rfl
    have hstep : ∃ a, (if ((ckv.lookup "author").getD .null).truthy then
        pyGetD ((ckv.lookup "author").getD .null) "displayName" (.str "Unknown")
      else .ok (JVal.str "Unknown")) = .ok a := by
      rcases hauth with hf | ⟨kvs, hobj⟩
      · exact ⟨.str "Unknown", by simp only [hf, Bool.false_eq_true, if_false]⟩
      · by_cases ht : ((ckv.lookup "author").getD .null).truthy
        · rw [hobj] at ht
          exact ⟨(kvs.lookup "displayName").getD (.str "Unknown"),
            by simp only [hobj, pyGetD, ht, if_true]⟩
        · rw [Bool.not_eq_true] at ht
          exact ⟨.str "Unknown", by simp only [ht, Bool.false_eq_true, if_false]⟩
    obtain ⟨a, ha⟩ := hstep
    have hbodystep : ∃ s, pyGetD (JVal.obj ckv) "body" (.str "") = .ok (.str s) := by
      rcases hbody with hb | ⟨s, hb⟩
      · exact ⟨"", by simp [pyGetD, hb]⟩
      · exact ⟨s, by simp [pyGetD, hb]⟩
    obtain ⟨s, hs⟩ := hbodystep
    have htail := ih (fun c hc => h c (List.mem_cons_of_mem _ hc))
    obtain ⟨out, hout⟩ := htail (if stripStr s ≠ "" then
        acc ++ ["Comment by " ++ pyStr a ++ ":\n" ++ stripStr s ++ "\n---"]
      else acc)
    exact ⟨out, by simp only [commentFold, hget, ebind_ok, ha, hs, pyStrip, hout]⟩

/-- A benign comment container never raises, and yields the
`"No Comments"` sentinel whenever the site is missing or null. -/
theorem extractComments_ok_of_benign (fkvs : List (String × JVal))
    (h : benignCommentSite ((fkvs.lookup "comment").getD .null)) :
    ∃ t, extractComments (JVal.obj fkvs) = .ok t ∧
      ((fkvs.lookup "comment").getD .null = .null → t = "No Comments") := by
  have hget : pyGet (JVal.obj fkvs) "comment" = .ok ((fkvs.lookup "comment").getD .null) := rfl
  rcases h with hf | ⟨ckvs, hobj, hcs⟩
  · exact ⟨"No Comments",
      by simp only [extractComments, hget, ebind_ok, hf, Bool.false_eq_true, if_false,
        List.isEmpty_nil, ite_true],
      fun _ => rfl⟩
  · have hvac : (fkvs.lookup "comment").getD .null = .null → False := by
      intro hn
      simp [hobj] at hn
    rcases hcs with hnone | ⟨cs, hlook, hbenign⟩
    · cases htr : ((fkvs.lookup "comment").getD .null).truthy
      · exact ⟨"No Comments",
          by simp only [extractComments, hget, ebind_ok, htr, Bool.false_eq_true, if_false,
            List.isEmpty_nil, ite_true],
          fun hn => absurd hn (fun hn => hvac hn)⟩
      · have hcont : pyContains ((fkvs.lookup "comment").getD .null) "comments" = .ok false := by
          simp [hobj, pyContains, hnone]
        exact ⟨"No Comments",
          by simp only [extractComments, hget, ebind_ok, htr, if_true, hcont,
            Bool.false_eq_true, if_false, List.isEmpty_nil, ite_true],
          fun hn => absurd hn (fun hn => hvac hn)⟩
    · have h: ckvs ≠ [] := by
        intro he
        rw [he] at hlook
        simp at hlook
      have hne' : ckvs.isEmpty = false := by
        cases ckvs with
        | nil => exact absurd rfl h
        | cons a l => rfl
      have htr : ((fkvs.lookup "comment").getD .null).truthy = true := by
        simp [hobj, JVal.truthy, hne']
      have hcont : pyContains ((fkvs.lookup "comment").getD .null) "comments" = .ok true := by
        simp [hobj, pyContains, hlook]
      have hsub : pySubscript ((fkvs.lookup "comment").getD .null) "comments" = .ok (.arr cs) := by
        simp [hobj, pySubscript, hlook]
      obtain ⟨out, hout⟩ := commentFold_ok_of_benign cs hbenign []
      exact ⟨if out.isEmpty then "No Comments" else String.intercalate "\n" out,
        by simp only [extractComments, hget, ebind_ok, htr, if_true, hcont, hsub,
          pyIter, hout],
        fun hn => absurd hn (fun hn => hvac hn)⟩

/-- C6 amended: for every record whose `fields` object is present and
non-empty, and whose status/priority/reporter/assignee/comment sites
each have the ordinary benign shape (so that no unrelated extraction
raises), the transformer returns a record (not None), and each affected
field independently carries its documented sentinel: a missing or null
status, priority or reporter maps to `"Unknown"`, a missing or null
assignee to `"Not Assigned"`, a missing or null comment container to
`"No Comments"`, and a missing or null description to
`"No Description Provided"`.  (A record with, say, only a null priority
and a real status object is covered: only the priority conditional
fires.) -/
theorem c6_sentinel_completeness_amended (pk : String) (ikvs fkvs : List (String × JVal))
    (hif : ikvs.lookup "fields" = some (.obj fkvs))
    (hne : fkvs ≠ [])
    (hst : benignSub ((fkvs.lookup "status").getD .null))
    (hpr : benignSub ((fkvs.lookup "priority").getD .null))
    (hrep : benignSub ((fkvs.lookup "reporter").getD .null))
    (hasg : benignSub ((fkvs.lookup "assignee").getD .null))
    (hcom : benignCommentSite ((fkvs.lookup "comment").getD .null)) :
    ∃ r, transform_issue_for_llm (.obj ikvs) pk = some r ∧
      ((fkvs.lookup "status").getD .null = .null →
        jmget r "status" = some (.str "Unknown")) ∧
      ((fkvs.lookup "priority").getD .null = .null →
        jmget r "priority" = some (.str "Unknown")) ∧
      ((fkvs.lookup "reporter").getD .null = .null →
        jmget r "reporter" = some (.str "Unknown")) ∧
      ((fkvs.lookup "assignee").getD .null = .null →
        jmget r "assignee" = some (.str "Not Assigned")) ∧
      ((fkvs.lookup "comment").getD .null = .null →
        jget r "comments_text" = some (.str "No Comments")) ∧
      ((fkvs.lookup "description").getD .null = .null →
        jget r "description" = some (.str "No Description Provided")) := by
  have hne' : fkvs.isEmpty = false := by
    cases fkvs with
    | nil => exact absurd rfl hne
    | cons a l => rfl
  obtain ⟨vst, hstE, hstC⟩ := extractSub_ok_of_benign fkvs "status" "name" "Unknown" hst
  obtain ⟨vpr, hprE, hprC⟩ := extractSub_ok_of_benign fkvs "priority" "name" "Unknown" hpr
  obtain ⟨vrep, hrepE, hrepC⟩ := extractSub_ok_of_benign fkvs "reporter" "displayName" "Unknown" hrep
  obtain ⟨vasg, hasgE, hasgC⟩ := extractSub_ok_of_benign fkvs "assignee" "displayName" "Not Assigned" hasg
  obtain ⟨ctext, hecE, hecC⟩ := extractComments_ok_of_benign fkvs hcom
  have main : transform_issue_for_llm (.obj ikvs) pk =
      some (mkStructuredData pk
        ((ikvs.lookup "key").getD .null)
        ((fkvs.lookup "summary").getD (.str "No Title"))
        (if ((fkvs.lookup "description").getD JVal.null).truthy then
          ((fkvs.lookup "description").getD JVal.null)
         else JVal.str "No Description Provided")
        vst vpr vrep vasg
        ((fkvs.lookup "created").getD (.str ""))
        ((fkvs.lookup "labels").getD (.arr []))
        ctext) := by
    simp only [transform_issue_for_llm, transformBody, pyGet, pyGetD, hif, Option.getD_some,
      ebind_ok, JVal.truthy, hne', Bool.not_false, Bool.not_true, Bool.false_eq_true, if_false,
      hstE, hprE, hrepE, hasgE, hecE]
  refine ⟨_, main, fun hn => ?_, fun hn => ?_, fun hn => ?_, fun hn => ?_,
    fun hn => ?_, fun hn => ?_⟩
  · rw [hstC hn]; rfl
  · rw [hprC hn]; rfl
  · rw [hrepC hn]; rfl
  · rw [hasgC hn]; rfl
  · rw [hecC hn]; rfl
  · simp [mkStructuredData, jget, hn, JVal.truthy, List.lookup]

/-- Witness for C6 amended at a record with a real status object and
only the priority explicitly null: the record is produced and exactly
the priority carries its sentinel. -/
theorem c6_witness :
    ∃ r, transform_issue_for_llm
        (.obj [("key", .str "ISSUE-2"), ("fields",
          .obj [("status", .obj [("name", .str "Open")]), ("priority", JVal.null)])]) "SPARK" =
        some r ∧
      jmget r "priority" = some (.str "Unknown") := by
  obtain ⟨r, hr, _, hprC, _, _, _, _⟩ := c6_sentinel_completeness_amended "SPARK"
    [("key", .str "ISSUE-2"), ("fields",
      .obj [("status", .obj [("name", .str "Open")]), ("priority", JVal.null)])]
    [("status", .obj [("name", .str "Open")]), ("priority", JVal.null)]
    rfl (by simp)
    (Or.inr ⟨[("name", .str "Open")], rfl⟩)
    (Or.inl rfl) (Or.inl rfl) (Or.inl rfl) (Or.inl rfl)
  exact ⟨r, hr, hprC rfl⟩

/-- C7: every record the transformer emits has the fixed shape
`\x7bid, project, title, description, comments_text,
metadata\x7bstatus, priority, reporter, assignee, created_at, labels,
issue_url\x7d, derived_tasks[]\x7d` (the spec names these partition,
body_text, derived_text_blocks and source_url respectively), where
`derived_tasks` is exactly the fixed three-element
summarization/classification/question-answering list, each element a
`\x7btask_type, instruction, input, output\x7d` descriptor, computed
deterministically by `derivedTasksFrom` from the record's own title,
description, status, priority and comments text — no randomness. -/
theorem c7_normalized_record_shape (issue : JVal) (pk : String) (r : JVal)
    (h : transform_issue_for_llm issue pk = some r) :
    jkeys r = ["id", "project", "title", "description", "comments_text", "metadata", "derived_tasks"] ∧
    (∃ m, jget r "metadata" = some m ∧
      jkeys m = ["status", "priority", "reporter", "assignee", "created_at", "labels", "issue_url"]) ∧
    (∃ title desc status prio ctext,
      jget r "title" = some title ∧
      jget r "description" = some desc ∧
      jget r "comments_text" = some (JVal.str ctext) ∧
      jmget r "status" = some status ∧
      jmget r "priority" = some prio ∧
      jget r "derived_tasks" = some (derivedTasksFrom title desc status prio ctext)) ∧
    (∃ ts, jget r "derived_tasks" = some (JVal.arr ts) ∧ ts.length = 3 ∧
      (∀ t ∈ ts, jkeys t = ["task_type", "instruction", "input", "output"]) ∧
      ts.map (fun t => jget t "task_type") =
        [some (JVal.str "summarization"), some (JVal.str "classification"),
         some (JVal.str "question_answering")]) := by
  obtain ⟨key, title, desc, st, pr, rep, asg, created, labels, ctext, hr⟩ :=
    transform_ok_factor issue pk r h
  subst hr
  refine ⟨rfl, ⟨_, rfl, rfl⟩, ⟨title, desc, st, pr, ctext, rfl, rfl, rfl, rfl, rfl, rfl⟩,
    ⟨_, rfl, rfl, ?_, rfl⟩⟩
  intro t ht
  simp only [derivedTasksFrom, List.mem_cons, List.not_mem_nil, or_false] at ht
  rcases ht with h1 | h1 | h1 <;> subst h1 <;> rfl

/-- Witness for C7 at a concrete record. -/
theorem c7_witness :
    ∃ r, transform_issue_for_llm issueA "SPARK" = some r ∧
      jkeys r = ["id", "project", "title", "description", "comments_text", "metadata", "derived_tasks"] :=
  ⟨_, rfl, (c7_normalized_record_shape issueA "SPARK" _ rfl).1⟩

/-- C8: an HTTP 429 page response makes the engine sleep the fixed
60-second cooldown and loop back to the same offset: the events are
exactly the sleep, the offset is unchanged and no checkpoint is
written. -/
theorem c8_rate_limited_no_state_change (pk : String) (i s : Nat)
    (issues : List JVal) (total : Nat) :
    engineStep pk i s (.resp 429 issues total) = ⟨[.sleep 60], s, false⟩ := rfl

/-- C9 counterexample: the engine never calls `flush`; a successfully
processed two-record page performs two writes and zero flushes, so
records are not flushed one by one (they become durable when the
buffer fills or the file is closed). -/
theorem c9_no_flush_counterexample :
    ((engineStep "SPARK" 0 0 (.resp 200 [issueA, issueB] 2)).evs.countP Ev.isFlush) = 0 ∧
    ((engineStep "SPARK" 0 0 (.resp 200 [issueA, issueB] 2)).evs.countP Ev.isWrite) = 2 := by
  constructor <;> rfl

/-- C9 amended: the output file is opened in append-create mode and
only ever appended to — after any event trace the durable content
still starts with everything that was durable before (re-running the
engine never shortens the file), and the total content is the prior
content followed by exactly one serialized record plus newline per
write. (The engine performs no per-record flush; buffered content
becomes durable at `flush`/close.) -/
theorem c9_append_only_amended (fs : OutFile) (evs : List Ev) :
    (∃ t, (runEvs fs evs).durable = fs.durable ++ t) ∧
    (runEvs fs evs).durable ++ (runEvs fs evs).buffer =
      fs.durable ++ fs.buffer ++ evs.filterMap lineOf := by
  induction evs generalizing fs with
  | nil => simp [runEvs]
  | cons e t ih =>
    have hstep : runEvs fs (e :: t) = runEvs (applyEv fs e) t := rfl
    rw [hstep]
    obtain ⟨⟨w, hw⟩, heq⟩ := ih (applyEv fs e)
    cases e with
    | openOut => exact ⟨⟨w, hw⟩, by simpa [applyEv, lineOf] using heq⟩
    | writeRec r =>
      refine ⟨⟨w, by simpa [applyEv] using hw⟩, ?_⟩
      rw [heq]
      simp [applyEv, lineOf]
    | flush =>
      refine ⟨⟨fs.buffer ++ w, by simpa [applyEv] using hw⟩, ?_⟩
      rw [heq]
      simp [applyEv, lineOf]
    | closeOut =>
      refine ⟨⟨fs.buffer ++ w, by simpa [applyEv] using hw⟩, ?_⟩
      rw [heq]
      simp [applyEv, lineOf]
    | saveState i o =>
      exact ⟨⟨w, hw⟩, by simpa [applyEv, lineOf] using heq⟩
    | sleep n =>
      exact ⟨⟨w, hw⟩, by simpa [applyEv, lineOf] using heq⟩

/-- C10: (a) a present comment container holding a comment whose `body`
key is explicitly null makes the transformer return None for the whole
record — `comment.get('body', '')` returns the stored None and
`None.strip()` raises, caught by the record-level handler; (b) comments
whose `body` is absent or strips to the empty string are merely
excluded, the record is still produced, and with no surviving comments
its comments text is the `"No Comments"` sentinel. -/
theorem c10_null_comment_body_behaviour :
    (∀ (pk : String) (ikvs fkvs ckvs ckv : List (String × JVal)) (cs : List JVal),
      ikvs.lookup "fields" = some (.obj fkvs) →
      fkvs.lookup "comment" = some (.obj ckvs) →
      ckvs.lookup "comments" = some (.arr cs) →
      JVal.obj ckv ∈ cs →
      ckv.lookup "body" = some JVal.null →
      transform_issue_for_llm (.obj ikvs) pk = none) ∧
    (∀ (pk : String) (ikvs fkvs ckvs : List (String × JVal)) (cs : List JVal),
      ikvs.lookup "fields" = some (.obj fkvs) →
      (fkvs.lookup "status").getD .null = .null →
      (fkvs.lookup "priority").getD .null = .null →
      (fkvs.lookup "reporter").getD .null = .null →
      (fkvs.lookup "assignee").getD .null = .null →
      fkvs.lookup "comment" = some (.obj ckvs) →
      ckvs.lookup "comments" = some (.arr cs) →
      (∀ c ∈ cs, ∃ ckv, c = JVal.obj ckv ∧
        (ckv.lookup "author").getD .null = .null ∧
        (ckv.lookup "body" = none ∨ ∃ s, ckv.lookup "body" = some (.str s) ∧ stripStr s = "")) →
      ∃ r, transform_issue_for_llm (.obj ikvs) pk = some r ∧
        jget r "comments_text" = some (.str "No Comments")) :=
  ⟨transform_none_of_null_body, transform_skips_blank_comments⟩

/-- Witness for C10: a null-body comment drops the whole record; a
whitespace-body comment and an empty comment are skipped and the
record survives with the `"No Comments"` sentinel. -/
theorem c10_witness :
    transform_issue_for_llm
      (.obj [("key", .str "K1"), ("fields", .obj [("comment",
        .obj [("comments", .arr [.obj [("body", JVal.null)]])])])]) "SPARK" = none ∧
    (∃ r, transform_issue_for_llm
        (.obj [("key", .str "K2"), ("fields", .obj [("comment",
          .obj [("comments", .arr [.obj [("body", .str " ")], .obj []])])])]) "SPARK" =
        some r ∧
      jget r "comments_text" = some (.str "No Comments")) :=
  ⟨c10_null_comment_body_behaviour.1 "SPARK"
      [("key", .str "K1"), ("fields", .obj [("comment",
        .obj [("comments", .arr [.obj [("body", JVal.null)]])])])]
      [("comment", .obj [("comments", .arr [.obj [("body", JVal.null)]])])]
      [("comments", .arr [.obj [("body", JVal.null)]])]
      [("body", JVal.null)]
      [.obj [("body", JVal.null)]]
      rfl rfl rfl (by simp) rfl,
   c10_null_comment_body_behaviour.2 "SPARK"
      [("key", .str "K2"), ("fields", .obj [("comment",
        .obj [("comments", .arr [.obj [("body", .str " ")], .obj []])])])]
      [("comment", .obj [("comments", .arr [.obj [("body", .str " ")], .obj []])])]
      [("comments", .arr [.obj [("body", .str " ")], .obj []])]
      [.obj [("body", .str " ")], .obj []]
      rfl rfl rfl rfl rfl rfl rfl
      (by
        intro c hc
        rcases List.mem_cons.mp hc with h | h
        · exact ⟨[("body", .str " ")], h, rfl, Or.inr ⟨" ", rfl, rfl⟩⟩
        · rcases List.mem_cons.mp h with h2 | h2
          · exact ⟨[], h2, rfl, Or.inl rfl⟩
          · cases h2)⟩
